import Mathlib

/-!
Shallow embedding of the OpenAI-Document-Analyzer repository
(scripts/text_analysis.py and scripts/document_analyzer.py).

File contents, environment access and prints are modelled explicitly:
a `FileSystem` record gives, per path, whether the file exists, the
decoded character content on disk, and the result of parsing it as a
PDF (the page-by-page `extract_text` results, or the exception raised
by `pypdf`); printed warnings appear as an extra `List String` output;
the remote chat-completion client is a function parameter from the
assembled request to either the first candidate text
(`response.choices[0].message.content`) or a raised exception.
Python exceptions (subclasses of `Exception`) are the type `PyErr`.
-/

namespace DocAnalyzer

/-- Chat message roles used by the repository. -/
inductive Role where
  | system
  | user
  | assistant
deriving DecidableEq, Repr

/-- A (role, content) chat message, as the dicts passed to
`client.chat.completions.create`. -/
structure Message where
  role : Role
  content : String
deriving DecidableEq, Repr

/-- Python exceptions relevant to this code base (all are subclasses of
`Exception`; `openAIError` stands for `openai.OpenAIError` and its
subclasses, `exception` for a bare `Exception(msg)`, and `otherError`
for any other exception class, carrying the class name and message). -/
inductive PyErr where
  | fileNotFoundError (msg : String)
  | valueError (msg : String)
  | openAIError (msg : String)
  | exception (msg : String)
  | otherError (name : String) (msg : String)
deriving DecidableEq, Repr

/-- Python `str(e)` for the exceptions above: the message. -/
def PyErr.str : PyErr → String
  | .fileNotFoundError m => m
  | .valueError m => m
  | .openAIError m => m
  | .exception m => m
  | .otherError _ m => m

/-- Whether `except openai.OpenAIError` catches this exception. -/
def PyErr.isOpenAIError : PyErr → Bool
  | .openAIError _ => true
  | _ => false

/-- The state of the filesystem, as observed by the scripts. `rawText`
is the decoded character content of the file on disk (what a UTF-8
decode of its bytes yields); `pdfRead` is the outcome of
`pypdf.PdfReader` plus `page.extract_text()` over all pages in document
order, or the exception that parsing raises. -/
structure FileSystem where
  exists_ : String → Bool
  rawText : String → List Char
  pdfRead : String → Except PyErr (List String)

/-- The final path component: the suffix after the last `/`
(POSIX separator, as on the platform the repository targets). -/
def afterLastSep : List Char → List Char
  | [] => []
  | c :: rest =>
    if c = '/' || rest.contains '/' then afterLastSep rest else c :: rest

/-- The suffix of a character list starting at its last `.`, when a dot
occurs at all. -/
def fromLastDot : List Char → Option (List Char)
  | [] => none
  | c :: rest =>
    match fromLastDot rest with
    | some e => some e
    | none => if c = '.' then some (c :: rest) else none

/-- `os.path.splitext(p)[1]` (POSIX): the extension starts at the last
dot of the final path component, provided some character of that
component strictly before the dot is not itself a dot (so dotfiles such
as `.bashrc` have no extension). -/
def splitextExt (p : String) : String :=
  let b := afterLastSep p.data
  match fromLastDot b with
  | none => ""
  | some e =>
    if (b.take (b.length - e.length)).any (fun c => c ≠ '.') then
      e.asString
    else
      ""

/-- `pathlib.PurePath(p).suffix`: the extension of the final component
`name`, nonempty exactly when the last dot sits at index `i` with
`0 < i < len(name) - 1`. Trailing slashes are dropped by pathlib when
it parses the path. -/
def pathSuffix (p : String) : String :=
  let name := afterLastSep (p.data.reverse.dropWhile (fun c => c = '/')).reverse
  match fromLastDot name with
  | none => ""
  | some e =>
    if name.length - e.length > 0 ∧ 2 ≤ e.length then e.asString else ""

/-- Python `s.lower()` for the ASCII strings handled here (extension
strings): ASCII lower-casing of every character. -/
def pyLower (s : String) : String :=
  (s.data.map Char.toLower).asString

/-- The universal-newlines translation Python applies when reading a
file in text mode with `newline=None` (the default used by
`open(filepath, "r", encoding="utf-8")` and `Path.read_text`):
`"\r\n"` and `"\r"` both become `"\n"`. -/
def universalNewlines : List Char → List Char
  | [] => []
  | '\r' :: '\n' :: rest => '\n' :: universalNewlines rest
  | '\r' :: rest => '\n' :: universalNewlines rest
  | c :: rest => c :: universalNewlines rest

/-- Concatenation of the per-page extraction results: the loop
`text = ""` then `text += page.extract_text()` over `pdf_reader.pages`. -/
def concatPages (pages : List String) : String :=
  pages.foldl (fun t page => t ++ page) ""

/-- One request to `client.chat.completions.create`: the model
identifier, the message list, and the fixed sampling parameters
(`temperature=0.7`, `max_tokens=2000`). -/
structure ChatRequest where
  model : String
  messages : List Message
  temperature : ℚ
  max_tokens : Nat
deriving DecidableEq

/-- The remote chat-completion client: from the issued request to
either the first candidate text (`response.choices[0].message.content`)
or the exception the call raises. -/
abbrev Client := ChatRequest → Except PyErr String

namespace TextAnalysis

/-- `AVAILABLE_MODELS` from scripts/text_analysis.py. -/
def AVAILABLE_MODELS : List String :=
  ["gpt-4o",
   "gpt-4o-mini",
   "gpt-4-turbo",
   "gpt-4-turbo-preview",
   "gpt-3.5-turbo",
   "gpt-3.5-turbo-16k"]

/-- `load_text` from scripts/text_analysis.py: existence check first,
then dispatch on the lower-cased `os.path.splitext` extension; `.txt`
is read in text mode (hence with universal-newlines translation),
`.pdf` is parsed and its page texts concatenated (a `pypdf` exception
propagates unwrapped), anything else raises `ValueError`. -/
def load_text (fs : FileSystem) (filepath : String) : Except PyErr String :=
  if fs.exists_ filepath = false then
    .error (.fileNotFoundError ("File not found: " ++ filepath))
  else
    let extension := pyLower (splitextExt filepath)
    if extension = ".txt" then
      .ok (universalNewlines (fs.rawText filepath)).asString
    else if extension = ".pdf" then
      match fs.pdfRead filepath with
      | .ok pages => .ok (concatPages pages)
      | .error e => .error e
    else
      .error (.valueError
        ("Unsupported file extension: " ++ extension ++ ". Use .txt or .pdf"))

/-- The message list built inside `ask_questions` in
scripts/text_analysis.py (the two adjacent Python string literals of
the system message concatenate into one string). -/
def askQuestionsMessages (prompt example_prompt example_response
    text_to_analyze : String) : List Message :=
  [⟨.system,
    "You are a helpful assistant and you give answers in a list. " ++
      "People generally ask about text and books."⟩,
   ⟨.user, example_prompt⟩,
   ⟨.assistant, example_response⟩,
   ⟨.user,
    "Now, about this following text, " ++ prompt ++ ": " ++ text_to_analyze⟩]

/-- The request `ask_questions` passes to
`client.chat.completions.create`. -/
def askQuestionsRequest (model prompt example_prompt example_response
    text_to_analyze : String) : ChatRequest :=
  ⟨model,
   askQuestionsMessages prompt example_prompt example_response text_to_analyze,
   0.7, 2000⟩

/-- `ask_questions` from scripts/text_analysis.py. `default_model`
stands for the module-level `DEFAULT_MODEL`
(`os.getenv("OPENAI_MODEL", "gpt-4o")`). The second component is the
list of warnings printed: one when the model is outside
`AVAILABLE_MODELS`. Only `openai.OpenAIError` is caught and turned
into the error-prefixed string; every other exception propagates. -/
def ask_questions (c : Client) (default_model : String)
    (prompt example_prompt example_response text_to_analyze : String)
    (model : Option String) : Except PyErr String × List String :=
  let m := model.getD default_model
  let warnings :=
    if AVAILABLE_MODELS.contains m then
      []
    else
      -- source text quotes the model name; quotes omitted here
      ["Warning: Model " ++ m ++ " may not be available. Proceeding anyway..."]
  let result :=
    match c (askQuestionsRequest m prompt example_prompt example_response
        text_to_analyze) with
    | .ok content => .ok content
    | .error e =>
      if e.isOpenAIError then
        .ok ("Error generating response: " ++ e.str)
      else
        .error e
  (result, warnings)

/-- `pyIsDigit s` is Python `s.isdigit()` for ASCII input: nonempty and
all characters decimal digits. -/
def pyIsDigit (s : String) : Bool :=
  s.length > 0 && s.data.all Char.isDigit

/-- Python `int(s)` for a string of decimal digits. -/
def pyInt (s : String) : Nat :=
  s.data.foldl (fun a c => a * 10 + (c.toNat - 48)) 0

/-- The model-selection dialogue of `main` in scripts/text_analysis.py
(lines handling the `model` command, after the second input has been
read and stripped): numeric input is a 1-based index into
`AVAILABLE_MODELS`, otherwise an exact model name is accepted; anything
else leaves the current model unchanged. The second component is the
lines printed. -/
def selectModel (current_model model_choice : String) :
    String × List String :=
  if pyIsDigit model_choice then
    let idx : Int := (pyInt model_choice : Int) - 1
    if 0 ≤ idx ∧ idx < (AVAILABLE_MODELS.length : Int) then
      let newModel := AVAILABLE_MODELS.getD idx.toNat ""
      (newModel, ["Model changed to: " ++ newModel])
    else
      (current_model, ["Invalid model number."])
  else if AVAILABLE_MODELS.contains model_choice then
    (model_choice, ["Model changed to: " ++ model_choice])
  else
    (current_model, ["Invalid model selection."])

end TextAnalysis

namespace DocumentAnalyzer

/-- `DocumentAnalyzer.AVAILABLE_MODELS` from
scripts/document_analyzer.py (never consulted by any method). -/
def AVAILABLE_MODELS : List String :=
  ["gpt-4o",
   "gpt-4o-mini",
   "gpt-4-turbo",
   "gpt-4-turbo-preview",
   "gpt-3.5-turbo",
   "gpt-3.5-turbo-16k"]

/-- `DocumentAnalyzer.extract_text_from_pdf`: existence check, then PDF
parsing with page concatenation; any exception from parsing or
extraction is wrapped into `ValueError("Error reading PDF file: ...")`. -/
def extract_text_from_pdf (fs : FileSystem) (filepath : String) :
    Except PyErr String :=
  if fs.exists_ filepath = false then
    .error (.fileNotFoundError ("File not found: " ++ filepath))
  else
    match fs.pdfRead filepath with
    | .ok pages => .ok (concatPages pages)
    | .error e => .error (.valueError ("Error reading PDF file: " ++ e.str))

/-- `DocumentAnalyzer.load_text`: existence check first, then dispatch
on the lower-cased `pathlib` suffix; `.txt` uses
`Path.read_text(encoding="utf-8")` (text mode, hence universal
newlines), `.pdf` delegates to `extract_text_from_pdf`, anything else
raises `ValueError`. -/
def load_text (fs : FileSystem) (filepath : String) : Except PyErr String :=
  if fs.exists_ filepath = false then
    .error (.fileNotFoundError ("File not found: " ++ filepath))
  else
    let extension := pyLower (pathSuffix filepath)
    if extension = ".txt" then
      .ok (universalNewlines (fs.rawText filepath)).asString
    else if extension = ".pdf" then
      extract_text_from_pdf fs filepath
    else
      .error (.valueError
        ("Unsupported file extension: " ++ extension ++ ". Use .txt or .pdf"))

/-- The 2-message list built inside `DocumentAnalyzer.analyze_text`. -/
def analyzeTextMessages (prompt text : String) : List Message :=
  [⟨.system, "You are a helpful assistant that analyzes text and documents."⟩,
   ⟨.user, prompt ++ ": " ++ text⟩]

/-- The request `DocumentAnalyzer.analyze_text` passes to
`client.chat.completions.create`. -/
def analyzeTextRequest (model prompt text : String) : ChatRequest :=
  ⟨model, analyzeTextMessages prompt text, 0.7, 2000⟩

/-- `DocumentAnalyzer.analyze_text`: builds the 2-message request, does
the single call, and on any exception re-raises it wrapped as a bare
`Exception("Error analyzing text: ...")`. It never consults
`AVAILABLE_MODELS` and prints nothing, so the warning component is
always empty. `default_model` stands for `self.default_model`. -/
def analyze_text (c : Client) (default_model : String) (text : String)
    (prompt : String) (model : Option String) :
    Except PyErr String × List String :=
  let m := model.getD default_model
  let result :=
    match c (analyzeTextRequest m prompt text) with
    | .ok content => .ok content
    | .error e => .error (.exception ("Error analyzing text: " ++ e.str))
  (result, [])

/-- The message list built inside `DocumentAnalyzer.ask_questions`
(identical to the standalone script version). -/
def askQuestionsMessages (prompt example_prompt example_response
    text_to_analyze : String) : List Message :=
  [⟨.system,
    "You are a helpful assistant and you give answers in a list. " ++
      "People generally ask about text and books."⟩,
   ⟨.user, example_prompt⟩,
   ⟨.assistant, example_response⟩,
   ⟨.user,
    "Now, about this following text, " ++ prompt ++ ": " ++ text_to_analyze⟩]

/-- The request `DocumentAnalyzer.ask_questions` passes to
`client.chat.completions.create`. -/
def askQuestionsRequest (model prompt example_prompt example_response
    text_to_analyze : String) : ChatRequest :=
  ⟨model,
   askQuestionsMessages prompt example_prompt example_response text_to_analyze,
   0.7, 2000⟩

/-- `DocumentAnalyzer.ask_questions`: builds the 4-message request,
does the single call, and converts every exception (bare
`except Exception`) into the error-prefixed string result. It never
consults `AVAILABLE_MODELS` and prints nothing. -/
def ask_questions (c : Client) (default_model : String)
    (prompt example_prompt example_response text_to_analyze : String)
    (model : Option String) : Except PyErr String × List String :=
  let m := model.getD default_model
  let result :=
    match c (askQuestionsRequest m prompt example_prompt example_response
        text_to_analyze) with
    | .ok content => .ok content
    | .error e => .ok ("Error generating response: " ++ e.str)
  (result, [])

end DocumentAnalyzer

/-! ### Concrete fixtures used by counterexamples and witnesses -/

/-- A filesystem on which every path exists and every file holds the
characters of `"a\rb"` — the state after text-mode writing of the
string `"a\rb"` on a platform whose `os.linesep` is `"\n"`. -/
def fsCR : FileSystem :=
  ⟨fun _ => true, fun _ => "a\rb".data, fun _ => .ok []⟩

/-- A filesystem on which no path exists. -/
def fsMissing : FileSystem :=
  ⟨fun _ => false, fun _ => [],
   fun _ => .error (.otherError "FileNotFoundError" "no such file")⟩

/-- A filesystem on which every path exists, text files hold
`"content"`, and PDF parsing fails. -/
def fsDoc : FileSystem :=
  ⟨fun _ => true, fun _ => "content".data,
   fun _ => .error (.otherError "PdfReadError" "EOF marker not found")⟩

/-- A filesystem on which every path exists and parses as a 3-page PDF
with page texts `"A"`, `"B"`, `"C"`. -/
def fsPdf : FileSystem :=
  ⟨fun _ => true, fun _ => [], fun _ => .ok ["A", "B", "C"]⟩

/-- A remote client that accepts any request and answers with the model
identifier the request carries. -/
def echoClient : Client := fun r => .ok r.model

/-- A remote client whose call always raises
`openai.OpenAIError("boom")`. -/
def failOpenAIClient : Client := fun _ => .error (.openAIError "boom")

/-- A remote client whose call always raises `TypeError("bad")`, an
exception that is not an `openai.OpenAIError`. -/
def failTypeErrorClient : Client := fun _ => .error (.otherError "TypeError" "bad")

/-- Whether a loader outcome is the unsupported-format error
(`ValueError` raised by the extension dispatch). -/
def isUnsupportedFormatErr : Except PyErr String → Bool
  | .error (.valueError _) => true
  | _ => false

/-! ### Helper lemmas -/

/-- Converting the character list of a string back to a string is the
identity. -/
theorem asString_data (s : String) : s.data.asString = s := rfl

/-- Universal-newlines translation fixes any character list free of
carriage returns. -/
theorem universalNewlines_no_cr (l : List Char) (h : ∀ c ∈ l, c ≠ '\r') :
    universalNewlines l = l := by
  induction l with
  | nil => rfl
  | cons c rest ih =>
    have hc : c ≠ '\r' := h c (List.mem_cons_self c rest)
    have hr : ∀ x ∈ rest, x ≠ '\r' := fun x hx => h x (List.mem_cons_of_mem c hx)
    rw [universalNewlines.eq_4 c rest (fun _ hcr _ => hc hcr) (fun hcr => hc hcr),
      ih hr]

/-! ### Claims -/

/-- C1: for every prompt, example prompt, example response and text,
few-shot message construction — `ask_questions` in both the standalone
script and the class — produces exactly 4 messages in the fixed role
order system, user, assistant, user, with exactly one example
user/assistant pair (carrying the example prompt and the example
response) between the system message and the final user message, and
the final user message content equal to
`"Now, about this following text, " ++ prompt ++ ": " ++ text`. -/
theorem c1_few_shot_messages
    (prompt example_prompt example_response text : String) :
    (TextAnalysis.askQuestionsMessages prompt example_prompt example_response
        text).length = 4 ∧
    (TextAnalysis.askQuestionsMessages prompt example_prompt example_response
        text).map Message.role = [.system, .user, .assistant, .user] ∧
    ((TextAnalysis.askQuestionsMessages prompt example_prompt example_response
        text).getD 1 ⟨.system, ""⟩).content = example_prompt ∧
    ((TextAnalysis.askQuestionsMessages prompt example_prompt example_response
        text).getD 2 ⟨.system, ""⟩).content = example_response ∧
    ((TextAnalysis.askQuestionsMessages prompt example_prompt example_response
        text).getD 3 ⟨.system, ""⟩).content =
      "Now, about this following text, " ++ prompt ++ ": " ++ text ∧
    (DocumentAnalyzer.askQuestionsMessages prompt example_prompt
        example_response text).length = 4 ∧
    (DocumentAnalyzer.askQuestionsMessages prompt example_prompt
        example_response text).map Message.role =
      [.system, .user, .assistant, .user] ∧
    ((DocumentAnalyzer.askQuestionsMessages prompt example_prompt
        example_response text).getD 1 ⟨.system, ""⟩).content = example_prompt ∧
    ((DocumentAnalyzer.askQuestionsMessages prompt example_prompt
        example_response text).getD 2 ⟨.system, ""⟩).content =
      example_response ∧
    ((DocumentAnalyzer.askQuestionsMessages prompt example_prompt
        example_response text).getD 3 ⟨.system, ""⟩).content =
      "Now, about this following text, " ++ prompt ++ ": " ++ text :=
  ⟨rfl, rfl, rfl, rfl, rfl, rfl, rfl, rfl, rfl, rfl⟩

/-- C5: for every prompt and text, plain-analysis message construction
(`DocumentAnalyzer.analyze_text`) produces exactly 2 messages, system
first and user second — so the sequence begins with exactly one system
message — and the user message content is `prompt ++ ": " ++ text`. -/
theorem c5_plain_analysis_messages (prompt text : String) :
    (DocumentAnalyzer.analyzeTextMessages prompt text).length = 2 ∧
    (DocumentAnalyzer.analyzeTextMessages prompt text).map Message.role =
      [.system, .user] ∧
    (DocumentAnalyzer.analyzeTextMessages prompt text).countP
      (fun m => m.role == .system) = 1 ∧
    ((DocumentAnalyzer.analyzeTextMessages prompt text).getD 1
        ⟨.system, ""⟩).content = prompt ++ ": " ++ text :=
  ⟨rfl, rfl, rfl, rfl⟩

/-- C2, counterexample: both loaders read `.txt` files in Python text
mode, which applies universal-newlines translation, so the write/load
round trip is not the identity: for `S = "a\rb"`, writing `S` leaves
the characters `a`, CR, `b` on disk (fixture `fsCR`), yet loading
returns `"a\nb" ≠ S`. -/
theorem c2_roundtrip_counterexample :
    TextAnalysis.load_text fsCR "f.txt" = .ok "a\nb" ∧
    DocumentAnalyzer.load_text fsCR "f.txt" = .ok "a\nb" ∧
    ("a\nb" : String) ≠ "a\rb" :=
  ⟨rfl, rfl, by decide⟩

/-- C2, amended: for every string `S` that contains no carriage-return
character, writing `S` to a file with extension `.txt` (so the file
holds exactly the characters of `S`) and loading it back through either
loader returns exactly `S`. -/
theorem c2_txt_roundtrip (fs : FileSystem) (path S : String)
    (hex : fs.exists_ path = true)
    (hw : fs.rawText path = S.data)
    (hcr : ∀ c ∈ S.data, c ≠ '\r')
    (hs : pyLower (splitextExt path) = ".txt")
    (hp : pyLower (pathSuffix path) = ".txt") :
    TextAnalysis.load_text fs path = .ok S ∧
    DocumentAnalyzer.load_text fs path = .ok S := by
  constructor
  · simp [TextAnalysis.load_text, hex, hs, hw, universalNewlines_no_cr _ hcr,
      asString_data]
  · simp [DocumentAnalyzer.load_text, hex, hp, hw,
      universalNewlines_no_cr _ hcr, asString_data]

/-- C2, witness for the amended theorem: the round trip at the concrete
carriage-return-free string `"content"` and path `"a.txt"`. -/
theorem c2_txt_roundtrip_witness :
    TextAnalysis.load_text fsDoc "a.txt" = .ok "content" ∧
    DocumentAnalyzer.load_text fsDoc "a.txt" = .ok "content" :=
  c2_txt_roundtrip fsDoc "a.txt" "content" rfl rfl (by decide) (by decide)
    (by decide)

/-- C3, counterexample: both loaders check existence before the
extension, so for the nonexistent path `"a.doc"` they raise
`FileNotFoundError`, not the unsupported-format `ValueError` — the
claim fails for paths that do not exist. -/
theorem c3_unsupported_counterexample :
    TextAnalysis.load_text fsMissing "a.doc" =
      .error (.fileNotFoundError "File not found: a.doc") ∧
    isUnsupportedFormatErr (TextAnalysis.load_text fsMissing "a.doc") =
      false ∧
    DocumentAnalyzer.load_text fsMissing "a.doc" =
      .error (.fileNotFoundError "File not found: a.doc") ∧
    isUnsupportedFormatErr (DocumentAnalyzer.load_text fsMissing "a.doc") =
      false :=
  ⟨rfl, rfl, rfl, rfl⟩

/-- C3, amended: for every EXISTING path whose extension is not `.txt`
or `.pdf` (case-insensitive), both loaders raise the
unsupported-format `ValueError`, regardless of the file content; a
nonexistent path raises `FileNotFoundError` instead. -/
theorem c3_unsupported_extension (fs : FileSystem) (path : String)
    (hex : fs.exists_ path = true)
    (hs1 : pyLower (splitextExt path) ≠ ".txt")
    (hs2 : pyLower (splitextExt path) ≠ ".pdf")
    (hp1 : pyLower (pathSuffix path) ≠ ".txt")
    (hp2 : pyLower (pathSuffix path) ≠ ".pdf") :
    TextAnalysis.load_text fs path =
      .error (.valueError ("Unsupported file extension: " ++
        pyLower (splitextExt path) ++ ". Use .txt or .pdf")) ∧
    DocumentAnalyzer.load_text fs path =
      .error (.valueError ("Unsupported file extension: " ++
        pyLower (pathSuffix path) ++ ". Use .txt or .pdf")) := by
  constructor
  · simp [TextAnalysis.load_text, hex, hs1, hs2]
  · simp [DocumentAnalyzer.load_text, hex, hp1, hp2]

/-- C3, witness for the amended theorem: an existing `.doc` file (with
arbitrary content) is rejected with the unsupported-format error by
both loaders. -/
theorem c3_unsupported_extension_witness :
    TextAnalysis.load_text fsDoc "a.doc" =
      .error (.valueError "Unsupported file extension: .doc. Use .txt or .pdf") ∧
    DocumentAnalyzer.load_text fsDoc "a.doc" =
      .error (.valueError "Unsupported file extension: .doc. Use .txt or .pdf") := by
  have h := c3_unsupported_extension fsDoc "a.doc" rfl (by decide) (by decide)
    (by decide) (by decide)
  exact h

/-- C4: whenever the remote completion call raises a client failure
(an `openai.OpenAIError` with message `msg`), the standalone
`ask_questions` and `DocumentAnalyzer.ask_questions` convert it into
the result string `"Error generating response: " ++ msg`, while
`DocumentAnalyzer.analyze_text` re-raises it wrapped in a generic
`Exception("Error analyzing text: " ++ msg)`; and no call site
retries: each function consults the client only at its single request,
so any two clients agreeing there produce identical outcomes. -/
theorem c4_remote_failure_handling (c : Client)
    (dm prompt ep er text : String) (model : Option String) (msg : String) :
    (c (TextAnalysis.askQuestionsRequest (model.getD dm) prompt ep er text) =
        .error (.openAIError msg) →
      (TextAnalysis.ask_questions c dm prompt ep er text model).1 =
        .ok ("Error generating response: " ++ msg)) ∧
    (c (DocumentAnalyzer.askQuestionsRequest (model.getD dm) prompt ep er
          text) = .error (.openAIError msg) →
      (DocumentAnalyzer.ask_questions c dm prompt ep er text model).1 =
        .ok ("Error generating response: " ++ msg)) ∧
    (c (DocumentAnalyzer.analyzeTextRequest (model.getD dm) prompt text) =
        .error (.openAIError msg) →
      (DocumentAnalyzer.analyze_text c dm text prompt model).1 =
        .error (.exception ("Error analyzing text: " ++ msg))) ∧
    (∀ c2 : Client,
      c (TextAnalysis.askQuestionsRequest (model.getD dm) prompt ep er text) =
        c2 (TextAnalysis.askQuestionsRequest (model.getD dm) prompt ep er
          text) →
      TextAnalysis.ask_questions c dm prompt ep er text model =
        TextAnalysis.ask_questions c2 dm prompt ep er text model) ∧
    (∀ c2 : Client,
      c (DocumentAnalyzer.askQuestionsRequest (model.getD dm) prompt ep er
          text) =
        c2 (DocumentAnalyzer.askQuestionsRequest (model.getD dm) prompt ep er
          text) →
      DocumentAnalyzer.ask_questions c dm prompt ep er text model =
        DocumentAnalyzer.ask_questions c2 dm prompt ep er text model) ∧
    (∀ c2 : Client,
      c (DocumentAnalyzer.analyzeTextRequest (model.getD dm) prompt text) =
        c2 (DocumentAnalyzer.analyzeTextRequest (model.getD dm) prompt text) →
      DocumentAnalyzer.analyze_text c dm text prompt model =
        DocumentAnalyzer.analyze_text c2 dm text prompt model) := by
  refine ⟨fun h => ?_, fun h => ?_, fun h => ?_,
    fun c2 h => ?_, fun c2 h => ?_, fun c2 h => ?_⟩
  · simp [TextAnalysis.ask_questions, h, PyErr.isOpenAIError, PyErr.str]
  · simp [DocumentAnalyzer.ask_questions, h, PyErr.str]
  · simp [DocumentAnalyzer.analyze_text, h, PyErr.str]
  · simp [TextAnalysis.ask_questions, h]
  · simp [DocumentAnalyzer.ask_questions, h]
  · simp [DocumentAnalyzer.analyze_text, h]

/-- C4, witness: with the client that always raises
`openai.OpenAIError("boom")`, the two `ask_questions` paths return the
error-prefixed string and `analyze_text` raises the wrapped generic
exception. -/
theorem c4_remote_failure_handling_witness :
    (TextAnalysis.ask_questions failOpenAIClient "gpt-4o" "p" "ep" "er" "t"
        none).1 = .ok ("Error generating response: " ++ "boom") ∧
    (DocumentAnalyzer.ask_questions failOpenAIClient "gpt-4o" "p" "ep" "er"
        "t" none).1 = .ok ("Error generating response: " ++ "boom") ∧
    (DocumentAnalyzer.analyze_text failOpenAIClient "gpt-4o" "t" "p" none).1 =
      .error (.exception ("Error analyzing text: " ++ "boom")) := by
  have h := c4_remote_failure_handling failOpenAIClient "gpt-4o" "p" "ep" "er"
    "t" none "boom"
  exact ⟨h.1 rfl, h.2.1 rfl, h.2.2.1 rfl⟩

/-- C6, counterexample: `DocumentAnalyzer.analyze_text` is a completion
path, yet for the out-of-allow-list identifier `"bogus-model"` it
issues the request with that identifier (the echoing client returns
it) while emitting NO warning — its printed-warnings component is
empty — so "a warning is emitted before proceeding" fails for the
class paths. -/
theorem c6_no_warning_counterexample :
    ("bogus-model" ∈ DocumentAnalyzer.AVAILABLE_MODELS → False) ∧
    (DocumentAnalyzer.analyze_text echoClient "gpt-4o" "text" "prompt"
        (some "bogus-model")).1 = .ok "bogus-model" ∧
    (DocumentAnalyzer.analyze_text echoClient "gpt-4o" "text" "prompt"
        (some "bogus-model")).2 = [] ∧
    (DocumentAnalyzer.ask_questions echoClient "gpt-4o" "p" "ep" "er" "t"
        (some "bogus-model")).2 = [] :=
  ⟨by decide, rfl, rfl, rfl⟩

/-- C6, amended: for every model identifier outside the allow-list,
every completion path still issues the request carrying that
identifier and never rejects it (the echoing client's answer is
returned unchanged), but only the standalone script path prints the
soft-validation warning; the two class paths proceed silently. -/
theorem c6_soft_validation (m dm p ep er t : String)
    (hm : m ∉ TextAnalysis.AVAILABLE_MODELS) :
    (TextAnalysis.ask_questions echoClient dm p ep er t (some m)).1 =
      .ok m ∧
    (TextAnalysis.ask_questions echoClient dm p ep er t (some m)).2 =
      ["Warning: Model " ++ m ++ " may not be available. Proceeding anyway..."] ∧
    (DocumentAnalyzer.analyze_text echoClient dm t p (some m)).1 = .ok m ∧
    (DocumentAnalyzer.analyze_text echoClient dm t p (some m)).2 = [] ∧
    (DocumentAnalyzer.ask_questions echoClient dm p ep er t (some m)).1 =
      .ok m ∧
    (DocumentAnalyzer.ask_questions echoClient dm p ep er t (some m)).2 =
      [] := by
  have hc : TextAnalysis.AVAILABLE_MODELS.contains m = false := by
    simpa using hm
  refine ⟨?_, ?_, rfl, rfl, rfl, rfl⟩
  · simp [TextAnalysis.ask_questions, echoClient, TextAnalysis.askQuestionsRequest]
  · simp only [TextAnalysis.ask_questions, hc]
    simp
    exact hm

/-- C6, witness for the amended theorem, at the concrete identifier
`"bogus-model"`. -/
theorem c6_soft_validation_witness :
    (TextAnalysis.ask_questions echoClient "gpt-4o" "p" "ep" "er" "t"
        (some "bogus-model")).1 = .ok "bogus-model" ∧
    (TextAnalysis.ask_questions echoClient "gpt-4o" "p" "ep" "er" "t"
        (some "bogus-model")).2 =
      ["Warning: Model " ++ "bogus-model" ++
        " may not be available. Proceeding anyway..."] ∧
    (DocumentAnalyzer.analyze_text echoClient "gpt-4o" "t" "p"
        (some "bogus-model")).1 = .ok "bogus-model" ∧
    (DocumentAnalyzer.analyze_text echoClient "gpt-4o" "t" "p"
        (some "bogus-model")).2 = [] ∧
    (DocumentAnalyzer.ask_questions echoClient "gpt-4o" "p" "ep" "er" "t"
        (some "bogus-model")).1 = .ok "bogus-model" ∧
    (DocumentAnalyzer.ask_questions echoClient "gpt-4o" "p" "ep" "er" "t"
        (some "bogus-model")).2 = [] :=
  c6_soft_validation "bogus-model" "gpt-4o" "p" "ep" "er" "t" (by decide)

/-- C7: in the model-selection dialogue, the decimal digits of a valid
1-based index select the model at that index; out-of-range digits
leave the model unchanged and print the warning; an exact allow-list
name selects that model; any other input leaves the model unchanged. -/
theorem c7_model_selection (cur choice : String) :
    (TextAnalysis.pyIsDigit choice = true →
      1 ≤ TextAnalysis.pyInt choice →
      TextAnalysis.pyInt choice ≤ TextAnalysis.AVAILABLE_MODELS.length →
      (TextAnalysis.selectModel cur choice).1 =
        TextAnalysis.AVAILABLE_MODELS.getD (TextAnalysis.pyInt choice - 1)
          "") ∧
    (TextAnalysis.pyIsDigit choice = true →
      (TextAnalysis.pyInt choice = 0 ∨
        TextAnalysis.AVAILABLE_MODELS.length < TextAnalysis.pyInt choice) →
      (TextAnalysis.selectModel cur choice).1 = cur ∧
      (TextAnalysis.selectModel cur choice).2 = ["Invalid model number."]) ∧
    (choice ∈ TextAnalysis.AVAILABLE_MODELS →
      (TextAnalysis.selectModel cur choice).1 = choice) ∧
    (TextAnalysis.pyIsDigit choice = false →
      choice ∉ TextAnalysis.AVAILABLE_MODELS →
      (TextAnalysis.selectModel cur choice).1 = cur) := by
  refine ⟨fun h1 h2 h3 => ?_, fun h1 h2 => ?_, fun hmem => ?_,
    fun h1 hnm => ?_⟩
  · have hcond : (0 : Int) ≤ (TextAnalysis.pyInt choice : Int) - 1 ∧
        (TextAnalysis.pyInt choice : Int) - 1 <
          (TextAnalysis.AVAILABLE_MODELS.length : Int) := by omega
    unfold TextAnalysis.selectModel
    rw [if_pos h1]
    dsimp only
    rw [if_pos hcond]
    dsimp only
    congr 1
    omega
  · have hcond : ¬((0 : Int) ≤ (TextAnalysis.pyInt choice : Int) - 1 ∧
        (TextAnalysis.pyInt choice : Int) - 1 <
          (TextAnalysis.AVAILABLE_MODELS.length : Int)) := by omega
    unfold TextAnalysis.selectModel
    rw [if_pos h1]
    dsimp only
    rw [if_neg hcond]
    exact ⟨rfl, rfl⟩
  · simp only [TextAnalysis.AVAILABLE_MODELS, List.mem_cons,
      List.mem_singleton, List.not_mem_nil, or_false] at hmem
    rcases hmem with rfl | rfl | rfl | rfl | rfl | rfl <;> rfl
  · unfold TextAnalysis.selectModel
    rw [if_neg (by simp [h1]), if_neg
      (fun hc => hnm (List.mem_of_elem_eq_true hc))]

/-- C7, witness: digits `"2"` select the second model, `"7"` and `"0"`
are out of range and warn, the exact name `"gpt-3.5-turbo"` is
selected, and the junk input `"zzz"` leaves the model unchanged. -/
theorem c7_model_selection_witness :
    (TextAnalysis.selectModel "gpt-4o" "2").1 = "gpt-4o-mini" ∧
    (TextAnalysis.selectModel "gpt-4o" "7").1 = "gpt-4o" ∧
    (TextAnalysis.selectModel "gpt-4o" "7").2 = ["Invalid model number."] ∧
    (TextAnalysis.selectModel "gpt-4o" "0").1 = "gpt-4o" ∧
    (TextAnalysis.selectModel "gpt-4o" "gpt-3.5-turbo").1 =
      "gpt-3.5-turbo" ∧
    (TextAnalysis.selectModel "gpt-4o" "zzz").1 = "gpt-4o" := by
  refine ⟨?_, ?_, ?_, ?_, ?_, ?_⟩
  · exact (c7_model_selection "gpt-4o" "2").1 (by decide) (by decide)
      (by decide)
  · exact ((c7_model_selection "gpt-4o" "7").2.1 (by decide)
      (Or.inr (by decide))).1
  · exact ((c7_model_selection "gpt-4o" "7").2.1 (by decide)
      (Or.inr (by decide))).2
  · exact ((c7_model_selection "gpt-4o" "0").2.1 (by decide)
      (Or.inl (by decide))).1
  · exact (c7_model_selection "gpt-4o" "gpt-3.5-turbo").2.2.1 (by decide)
  · exact (c7_model_selection "gpt-4o" "zzz").2.2.2 (by decide) (by decide)

/-- C8: for every existing PDF file whose pages extract to the texts
`pages` in document order, the loaders return exactly their direct
concatenation (the fold is `String.join`, which inserts no
separators). -/
theorem c8_pdf_concatenation (fs : FileSystem) (path : String)
    (pages : List String)
    (hex : fs.exists_ path = true)
    (hpg : fs.pdfRead path = .ok pages) :
    concatPages pages = String.join pages ∧
    (pyLower (splitextExt path) = ".pdf" →
      TextAnalysis.load_text fs path = .ok (concatPages pages)) ∧
    DocumentAnalyzer.extract_text_from_pdf fs path =
      .ok (concatPages pages) ∧
    (pyLower (pathSuffix path) = ".pdf" →
      DocumentAnalyzer.load_text fs path = .ok (concatPages pages)) := by
  refine ⟨rfl, fun hs => ?_, ?_, fun hp => ?_⟩
  · simp [TextAnalysis.load_text, hex, hs, hpg]
  · simp [DocumentAnalyzer.extract_text_from_pdf, hex, hpg]
  · simp [DocumentAnalyzer.load_text, hex, hp,
      DocumentAnalyzer.extract_text_from_pdf, hpg]

/-- C8, witness: a 3-page PDF with page texts `"A"`, `"B"`, `"C"`
loads as `"ABC"` through all three entry points. -/
theorem c8_pdf_concatenation_witness :
    TextAnalysis.load_text fsPdf "x.pdf" = .ok "ABC" ∧
    DocumentAnalyzer.extract_text_from_pdf fsPdf "x.pdf" = .ok "ABC" ∧
    DocumentAnalyzer.load_text fsPdf "x.pdf" = .ok "ABC" := by
  have h := c8_pdf_concatenation fsPdf "x.pdf" ["A", "B", "C"] rfl rfl
  exact ⟨h.2.1 (by decide), h.2.2.1, h.2.2.2 (by decide)⟩

/-- C9: every assignment the model-selection dialogue makes to the
active model is a member of `AVAILABLE_MODELS`; hence membership of
the active model in `AVAILABLE_MODELS` is preserved by every possible
selection input. -/
theorem c9_model_invariant (cur choice : String) :
    ((TextAnalysis.selectModel cur choice).1 = cur ∨
      (TextAnalysis.selectModel cur choice).1 ∈
        TextAnalysis.AVAILABLE_MODELS) ∧
    (cur ∈ TextAnalysis.AVAILABLE_MODELS →
      (TextAnalysis.selectModel cur choice).1 ∈
        TextAnalysis.AVAILABLE_MODELS) := by
  have main : (TextAnalysis.selectModel cur choice).1 = cur ∨
      (TextAnalysis.selectModel cur choice).1 ∈
        TextAnalysis.AVAILABLE_MODELS := by
    unfold TextAnalysis.selectModel
    by_cases h1 : TextAnalysis.pyIsDigit choice = true
    · rw [if_pos h1]
      dsimp only
      by_cases h2 : (0 : Int) ≤ (TextAnalysis.pyInt choice : Int) - 1 ∧
          (TextAnalysis.pyInt choice : Int) - 1 <
            (TextAnalysis.AVAILABLE_MODELS.length : Int)
      · rw [if_pos h2]
        right
        have hlt : ((TextAnalysis.pyInt choice : Int) - 1).toNat <
            TextAnalysis.AVAILABLE_MODELS.length := by omega
        dsimp only
        rw [List.getD_eq_getElem _ _ hlt]
        exact List.getElem_mem hlt
      · rw [if_neg h2]
        exact Or.inl rfl
    · rw [if_neg h1]
      by_cases h3 : TextAnalysis.AVAILABLE_MODELS.contains choice = true
      · rw [if_pos h3]
        exact Or.inr (List.mem_of_elem_eq_true h3)
      · rw [if_neg h3]
        exact Or.inl rfl
  exact ⟨main, fun hcur => main.elim (fun h => by rw [h]; exact hcur) id⟩

/-- C9, witness: starting from the allow-listed model `"gpt-4o"`, the
input `"zzz"` preserves membership of the active model in the
allow-list. -/
theorem c9_model_invariant_witness :
    (TextAnalysis.selectModel "gpt-4o" "zzz").1 ∈
      TextAnalysis.AVAILABLE_MODELS :=
  (c9_model_invariant "gpt-4o" "zzz").2 (by decide)

/-- C10: when the completion call raises exception `e`, the standalone
`ask_questions` returns the error-prefixed string only when `e` is an
`openai.OpenAIError` and otherwise lets `e` propagate uncaught,
whereas `DocumentAnalyzer.ask_questions` converts every exception
into the error-prefixed string result. -/
theorem c10_exception_asymmetry (c : Client) (dm p ep er t : String)
    (model : Option String) (e : PyErr)
    (h1 : c (TextAnalysis.askQuestionsRequest (model.getD dm) p ep er t) =
      .error e)
    (h2 : c (DocumentAnalyzer.askQuestionsRequest (model.getD dm) p ep er t) =
      .error e) :
    (TextAnalysis.ask_questions c dm p ep er t model).1 =
      (if e.isOpenAIError then
        .ok ("Error generating response: " ++ e.str)
      else
        .error e) ∧
    (DocumentAnalyzer.ask_questions c dm p ep er t model).1 =
      .ok ("Error generating response: " ++ e.str) := by
  constructor
  · simp [TextAnalysis.ask_questions, h1]
  · simp [DocumentAnalyzer.ask_questions, h2]

/-- C10, witness: with the client raising `TypeError("bad")` (not an
`openai.OpenAIError`), the standalone path propagates the exception
while the class path returns the error-prefixed string. -/
theorem c10_exception_asymmetry_witness :
    PyErr.isOpenAIError (.otherError "TypeError" "bad") = false ∧
    (TextAnalysis.ask_questions failTypeErrorClient "gpt-4o" "p" "ep" "er"
        "t" none).1 = .error (.otherError "TypeError" "bad") ∧
    (DocumentAnalyzer.ask_questions failTypeErrorClient "gpt-4o" "p" "ep"
        "er" "t" none).1 = .ok ("Error generating response: " ++ "bad") := by
  have h := c10_exception_asymmetry failTypeErrorClient "gpt-4o" "p" "ep"
    "er" "t" none (.otherError "TypeError" "bad") rfl rfl
  refine ⟨rfl, ?_, h.2⟩
  rw [h.1]
  rfl

end DocAnalyzer
